import Mathlib

/-!
Shallow embedding of `src/collect_ais.py` (AIS data collector for the
Baltic Sea region).  The Python pipeline is: fetch position reports,
filter them to a hardcoded bounding box, fetch vessel metadata and build
a lookup restricted to the filtered identifiers, append rows to a SQLite
store, and export a JSON snapshot.  Python floats are modelled as `ℚ`,
JSON-nullable values as `Option`, raised exceptions as `Except PyError`,
and dictionaries as association lists with overwrite-on-insert.
-/

set_option autoImplicit false

namespace CollectAis

/-- A Python exception reaching the top level (only the kinds the source
can raise in the modelled fragment). -/
inductive PyError where
  | keyError
  | indexError
  deriving DecidableEq, Repr

/-- The hardcoded bounding box, module-level constant `BBOX` in the source
(17.0, 30.3, 58.5, 66.0). -/
structure Bbox where
  min_lon : ℚ
  max_lon : ℚ
  min_lat : ℚ
  max_lat : ℚ
  deriving DecidableEq, Repr

/-- The float 30.3, i.e. the rational 303/10, written as an explicit
numerator/denominator pair so that concrete bounding-box tests evaluate
by kernel reduction. -/
def q30_3 : ℚ := ⟨303, 10, by decide, by decide⟩

/-- The float 58.5, i.e. the rational 117/2. -/
def q58_5 : ℚ := ⟨117, 2, by decide, by decide⟩

theorem q30_3_eq : q30_3 = 303 / 10 := by
  rw [← Rat.num_div_den q30_3, show q30_3.num = 303 from rfl,
    show q30_3.den = 10 from rfl]
  norm_num

theorem q58_5_eq : q58_5 = 117 / 2 := by
  rw [← Rat.num_div_den q58_5, show q58_5.num = 117 from rfl,
    show q58_5.den = 2 from rfl]
  norm_num

def BBOX : Bbox :=
  { min_lon := 17
  , max_lon := q30_3
  , min_lat := q58_5
  , max_lat := 66 }

/-- The `geometry` member of a GeoJSON feature: the source reads
`geometry["coordinates"][0]` and `[1]`, so a too-short list raises. -/
structure Geometry where
  coordinates : List ℚ
  deriving DecidableEq, Repr

/-- The `properties` member of a feature.  The source reads `mmsi` with
direct indexing in `main` (so it is treated as present) and the rest via
`.get`, hence the `Option`s. -/
structure Props where
  mmsi : Int
  sog : Option ℚ
  cog : Option ℚ
  heading : Option Int
  navStat : Option Int
  posAcc : Option Bool
  deriving DecidableEq, Repr

/-- One feature of the position-report feature collection.  `geometry` is
`Option` because the source indexes `feature["geometry"]` without guard:
absence raises `KeyError`. -/
structure Feature where
  geometry : Option Geometry
  properties : Props
  deriving DecidableEq, Repr

/-- The parsed body of the position-report response: a mapping that may
or may not have a `features` key. -/
structure AisData where
  features : Option (List Feature)
  deriving DecidableEq, Repr

/-- `feature["geometry"]["coordinates"]` followed by `coords[0], coords[1]`:
raises `KeyError` when `geometry` is missing and `IndexError` when the
coordinate list is shorter than 2. -/
def getCoords (f : Feature) : Except PyError (ℚ × ℚ) :=
  match f.geometry with
  | none => .error .keyError
  | some g =>
    match g.coordinates with
    | lon :: lat :: _ => .ok (lon, lat)
    | _ => .error .indexError

/-- The bounding-box test of `filter_vessels`:
`BBOX["min_lon"] <= lon <= BBOX["max_lon"] and BBOX["min_lat"] <= lat <= BBOX["max_lat"]`. -/
def inBbox (lon lat : ℚ) : Bool :=
  decide (BBOX.min_lon ≤ lon) && decide (lon ≤ BBOX.max_lon) &&
  decide (BBOX.min_lat ≤ lat) && decide (lat ≤ BBOX.max_lat)

/-- The `for feature in data["features"]` loop body of `filter_vessels`:
read the coordinates (possibly raising), keep the feature when the test
passes.  An exception from any iteration aborts the whole loop. -/
def filterLoop : List Feature → Except PyError (List Feature)
  | [] => .ok []
  | f :: rest =>
    match getCoords f with
    | .error e => .error e
    | .ok (lon, lat) =>
      match filterLoop rest with
      | .error e => .error e
      | .ok tail => if inBbox lon lat then .ok (f :: tail) else .ok tail

/-- `filter_vessels(data)`: returns `[]` when `data` is `None` (or falsy)
or has no `features` key, otherwise runs the loop. -/
def filter_vessels (data : Option AisData) : Except PyError (List Feature) :=
  match data with
  | none => .ok []
  | some d =>
    match d.features with
    | none => .ok []
    | some fs => filterLoop fs

/-- `true` when the feature would be kept by the loop: its coordinates
can be read and pass the bounding-box test. -/
def featureInBbox (f : Feature) : Bool :=
  match getCoords f with
  | .ok (lon, lat) => inBbox lon lat
  | .error _ => false

theorem filterLoop_mem {fs out : List Feature}
    (h : filterLoop fs = .ok out) (f : Feature) :
    f ∈ out ↔ f ∈ fs ∧ featureInBbox f = true := by
  induction fs generalizing out with
  | nil =>
    simp only [filterLoop] at h
    cases h
    simp
  | cons g rest ih =>
    simp only [filterLoop] at h
    cases hg : getCoords g with
    | error e => rw [hg] at h; cases h
    | ok p =>
      obtain ⟨lon, lat⟩ := p
      rw [hg] at h
      cases hr : filterLoop rest with
      | error e => rw [hr] at h; cases h
      | ok tail =>
        rw [hr] at h
        dsimp only at h
        by_cases hb : inBbox lon lat = true
        · rw [if_pos hb] at h
          cases h
          constructor
          · intro hf
            rcases List.mem_cons.mp hf with hf | hf
            · subst hf
              refine ⟨List.mem_cons_self _ _, ?_⟩
              simp [featureInBbox, hg, hb]
            · rcases (ih hr).mp hf with ⟨hmem, hbox⟩
              exact ⟨List.mem_cons_of_mem _ hmem, hbox⟩
          · rintro ⟨hmem, hbox⟩
            rcases List.mem_cons.mp hmem with hf | hf
            · subst hf; exact List.mem_cons_self _ _
            · exact List.mem_cons_of_mem _ ((ih hr).mpr ⟨hf, hbox⟩)
        · rw [if_neg hb] at h
          cases h
          constructor
          · intro hf
            rcases (ih hr).mp hf with ⟨hmem, hbox⟩
            exact ⟨List.mem_cons_of_mem _ hmem, hbox⟩
          · rintro ⟨hmem, hbox⟩
            rcases List.mem_cons.mp hmem with hf | hf
            · subst hf
              exfalso
              apply hb
              simpa [featureInBbox, hg] using hbox
            · exact (ih hr).mpr ⟨hf, hbox⟩

/-- C1: the geographic filter retains a feature exactly when its
coordinate pair (lon, lat) satisfies 17.0 ≤ lon ≤ 30.3 and
58.5 ≤ lat ≤ 66.0, all four edges inclusive. -/
theorem c1_filter_inclusive_bbox (fs out : List Feature)
    (h : filter_vessels (some { features := some fs }) = .ok out)
    (f : Feature) (lon lat : ℚ) (hc : getCoords f = .ok (lon, lat)) :
    f ∈ out ↔ f ∈ fs ∧
      ((17 : ℚ) ≤ lon ∧ lon ≤ 303 / 10 ∧ (117 / 2 : ℚ) ≤ lat ∧ lat ≤ 66) := by
  simp only [filter_vessels] at h
  rw [filterLoop_mem h f]
  have hbox : featureInBbox f = true ↔
      ((17 : ℚ) ≤ lon ∧ lon ≤ 303 / 10 ∧ (117 / 2 : ℚ) ≤ lat ∧ lat ≤ 66) := by
    simp [featureInBbox, hc, inBbox, BBOX, q30_3_eq, q58_5_eq, and_assoc]
  tauto

/-- C10: a `None` input or one lacking a `features` key makes the filter
return the empty list instead of raising. -/
theorem c10_filter_total_on_absent (data : Option AisData)
    (h : data = none ∨ ∃ d, data = some d ∧ d.features = none) :
    filter_vessels data = .ok [] := by
  rcases h with h | ⟨d, hd, hf⟩
  · subst h; rfl
  · subst hd
    simp [filter_vessels, hf]

theorem c10_filter_total_on_absent_witness :
    filter_vessels none = .ok [] ∧
      filter_vessels (some { features := none }) = .ok [] :=
  ⟨c10_filter_total_on_absent none (Or.inl rfl),
   c10_filter_total_on_absent (some { features := none })
     (Or.inr ⟨{ features := none }, rfl, rfl⟩)⟩

/-- One record of the vessel-metadata response (`/vessels` endpoint):
every field is read with `.get`, so any may be absent. -/
structure RawVessel where
  mmsi : Option Int
  name : Option String
  shipType : Option Int
  destination : Option String
  eta : Option String
  draught : Option ℚ
  deriving DecidableEq, Repr

/-- The value stored in the metadata lookup for one vessel: the source
builds `name` and `destination` with `.get(key, "").strip()` (always a
string), the rest with plain `.get` (possibly `None`). -/
structure VMeta where
  name : String
  ship_type : Option Int
  destination : String
  eta : Option String
  draught : Option ℚ
  deriving DecidableEq, Repr

/-- The dictionary value built for one raw vessel record. -/
def mkMeta (v : RawVessel) : VMeta :=
  { name := (v.name.getD "").trim
  , ship_type := v.shipType
  , destination := (v.destination.getD "").trim
  , eta := v.eta
  , draught := v.draught }

/-- Python `dict` assignment `d[k] = v`: overwrite in place when the key
exists, append otherwise. -/
def dictInsert (k : Int) (v : VMeta) (d : List (Int × VMeta)) :
    List (Int × VMeta) :=
  if d.any (fun p => p.1 == k) then
    d.map (fun p => if p.1 == k then (k, v) else p)
  else d ++ [(k, v)]

/-- Python `d.get(k)` on the metadata dictionary. -/
def dictGet (d : List (Int × VMeta)) (k : Int) : Option VMeta :=
  (d.find? (fun p => p.1 == k)).map (fun p => p.2)

/-- `fetch_vessel_metadata(mmsi_list)`: `resp = none` models the request
or parse raising (the `except` branch returns the empty dict); otherwise
index only the vessels whose identifier occurs in `mmsi_list`. -/
def fetch_vessel_metadata (resp : Option (List RawVessel))
    (mmsi_list : List Int) : List (Int × VMeta) :=
  match resp with
  | none => []
  | some vessels =>
    vessels.foldl
      (fun md v =>
        match v.mmsi with
        | some m => if m ∈ mmsi_list then dictInsert m (mkMeta v) md else md
        | none => md)
      []

/-- One row of the `vessel_positions` table; nullable columns are
`Option` (the schema marks `longitude`/`latitude` NOT NULL, but the row
value as inserted could in principle carry NULL, hence `Option` here so
that non-nullness is a theorem, not a typing assumption). -/
structure PositionRow where
  timestamp : String
  mmsi : Int
  name : Option String
  longitude : Option ℚ
  latitude : Option ℚ
  sog : Option ℚ
  cog : Option ℚ
  heading : Option Int
  nav_stat : Option Int
  ship_type : Option Int
  destination : Option String
  eta : Option String
  draught : Option ℚ
  pos_acc : Option Bool
  deriving DecidableEq, Repr

/-- The single row of `collection_summary` inserted per run. -/
structure SummaryRow where
  timestamp : String
  vessel_count : Nat
  collection_time_ms : Int
  deriving DecidableEq, Repr

/-- The tuple bound in the `INSERT INTO vessel_positions` statement for
one feature: re-reads the coordinates (so it can raise on a malformed
feature) and joins metadata with `vessel_metadata.get(mmsi, dict())`. -/
def mkRow (ts : String) (md : List (Int × VMeta)) (f : Feature) :
    Except PyError PositionRow :=
  match getCoords f with
  | .error e => .error e
  | .ok (lon, lat) =>
    let meta := dictGet md f.properties.mmsi
    .ok { timestamp := ts
        , mmsi := f.properties.mmsi
        , name := meta.map (fun m => m.name)
        , longitude := some lon
        , latitude := some lat
        , sog := f.properties.sog
        , cog := f.properties.cog
        , heading := f.properties.heading
        , nav_stat := f.properties.navStat
        , ship_type := meta.bind (fun m => m.ship_type)
        , destination := meta.map (fun m => m.destination)
        , eta := meta.bind (fun m => m.eta)
        , draught := meta.bind (fun m => m.draught)
        , pos_acc := f.properties.posAcc }

/-- Sequential loop over a list with a fallible body: an exception in any
iteration propagates and the surrounding transaction is never committed
(the source commits only after the whole loop). -/
def mapExcept {α β : Type} (g : α → Except PyError β) :
    List α → Except PyError (List β)
  | [] => .ok []
  | a :: as =>
    match g a with
    | .error e => .error e
    | .ok b =>
      match mapExcept g as with
      | .error e => .error e
      | .ok bs => .ok (b :: bs)

/-- `save_to_database(vessels, vessel_metadata, timestamp, ms)`: the rows
committed to `vessel_positions` and the one `collection_summary` row
(count is `len(vessels)`). -/
def save_to_database (vessels : List Feature) (md : List (Int × VMeta))
    (ts : String) (ct : Int) :
    Except PyError (List PositionRow × SummaryRow) :=
  match mapExcept (mkRow ts md) vessels with
  | .error e => .error e
  | .ok rows =>
    .ok (rows,
      { timestamp := ts, vessel_count := vessels.length
      , collection_time_ms := ct })

/-- One entry of the `vessels` array in `latest.json`. -/
structure VesselOut where
  mmsi : Int
  name : Option String
  lon : Option ℚ
  lat : Option ℚ
  sog : Option ℚ
  cog : Option ℚ
  heading : Option Int
  ship_type : Option Int
  destination : Option String
  deriving DecidableEq, Repr

/-- The JSON document written to `latest.json` (`json.dump`/`json.load`
are inverse stdlib functions, so the document is modelled structurally). -/
structure SnapshotDoc where
  timestamp : String
  vessel_count : Nat
  vessels : List VesselOut
  deriving DecidableEq, Repr

/-- The entry appended to `vessel_list` for one feature in
`export_latest_json`. -/
def mkVesselOut (md : List (Int × VMeta)) (f : Feature) :
    Except PyError VesselOut :=
  match getCoords f with
  | .error e => .error e
  | .ok (lon, lat) =>
    let meta := dictGet md f.properties.mmsi
    .ok { mmsi := f.properties.mmsi
        , name := meta.map (fun m => m.name)
        , lon := some lon
        , lat := some lat
        , sog := f.properties.sog
        , cog := f.properties.cog
        , heading := f.properties.heading
        , ship_type := meta.bind (fun m => m.ship_type)
        , destination := meta.map (fun m => m.destination) }

/-- `export_latest_json(vessels, vessel_metadata, timestamp)`: the
document it serializes, with `vessel_count = len(vessel_list)`. -/
def export_latest_json (vessels : List Feature) (md : List (Int × VMeta))
    (ts : String) : Except PyError SnapshotDoc :=
  match mapExcept (mkVesselOut md) vessels with
  | .error e => .error e
  | .ok vl =>
    .ok { timestamp := ts, vessel_count := vl.length, vessels := vl }

/-- The environment a run observes: the parsed position-report response
(`none` when `fetch_ais_data` returned `None` after an exception) and the
parsed metadata response (`none` when that request raised). -/
structure Env where
  positions : Option AisData
  vesselsResp : Option (List RawVessel)

/-- What a run persisted: rows appended to the two tables and the
snapshot document written to `latest.json` (`none` = file untouched). -/
structure RunState where
  positionRows : List PositionRow
  summaryRows : List SummaryRow
  snapshot : Option SnapshotDoc
  deriving DecidableEq, Repr

/-- Outcome of `main()`: the early `return` after a failed position
fetch, normal completion, or an uncaught exception. -/
inductive RunResult where
  | earlyReturn (s : RunState)
  | completed (s : RunState)
  | crashed (e : PyError)
  deriving DecidableEq, Repr

/-- State of a run that persisted nothing. -/
def emptyState : RunState :=
  { positionRows := [], summaryRows := [], snapshot := none }

/-- `main()`: fetch, early-return when `not data`, filter, build
`mmsi_list`, join, save, export.  `ts` is the single
`start_time.isoformat()` string and `ct` the measured milliseconds. -/
def main (env : Env) (ts : String) (ct : Int) : RunResult :=
  match env.positions with
  | none => .earlyReturn emptyState
  | some data =>
    match filter_vessels (some data) with
    | .error e => .crashed e
    | .ok vessels =>
      let mmsi_list := vessels.map (fun f => f.properties.mmsi)
      let md := fetch_vessel_metadata env.vesselsResp mmsi_list
      match save_to_database vessels md ts ct with
      | .error e => .crashed e
      | .ok (rows, summary) =>
        match export_latest_json vessels md ts with
        | .error e => .crashed e
        | .ok doc =>
          .completed
            { positionRows := rows, summaryRows := [summary]
            , snapshot := some doc }

theorem mapExcept_length {α β : Type} {g : α → Except PyError β}
    {l : List α} {bs : List β} (h : mapExcept g l = .ok bs) :
    bs.length = l.length := by
  induction l generalizing bs with
  | nil => simp only [mapExcept] at h; cases h; rfl
  | cons a as ih =>
    simp only [mapExcept] at h
    cases ha : g a with
    | error e => rw [ha] at h; cases h
    | ok b =>
      rw [ha] at h
      cases hr : mapExcept g as with
      | error e => rw [hr] at h; cases h
      | ok bs0 =>
        rw [hr] at h
        cases h
        simp [ih hr]

theorem mapExcept_mem {α β : Type} {g : α → Except PyError β}
    {l : List α} {bs : List β} (h : mapExcept g l = .ok bs) {b : β}
    (hb : b ∈ bs) : ∃ a ∈ l, g a = .ok b := by
  induction l generalizing bs with
  | nil => simp only [mapExcept] at h; cases h; cases hb
  | cons a as ih =>
    simp only [mapExcept] at h
    cases ha : g a with
    | error e => rw [ha] at h; cases h
    | ok b0 =>
      rw [ha] at h
      cases hr : mapExcept g as with
      | error e => rw [hr] at h; cases h
      | ok bs0 =>
        rw [hr] at h
        cases h
        rcases List.mem_cons.mp hb with hb | hb
        · exact ⟨a, List.mem_cons_self _ _, hb ▸ ha⟩
        · rcases ih hr hb with ⟨a0, ha0, hg⟩
          exact ⟨a0, List.mem_cons_of_mem _ ha0, hg⟩

theorem mapExcept_ok_of_forall {α β : Type} {g : α → Except PyError β}
    {l : List α} (h : ∀ a ∈ l, ∃ b, g a = .ok b) :
    ∃ bs, mapExcept g l = .ok bs := by
  induction l with
  | nil => exact ⟨[], rfl⟩
  | cons a as ih =>
    rcases h a (List.mem_cons_self _ _) with ⟨b, hb⟩
    rcases ih (fun x hx => h x (List.mem_cons_of_mem _ hx)) with ⟨bs, hbs⟩
    exact ⟨b :: bs, by simp [mapExcept, hb, hbs]⟩

theorem filterLoop_mem_getCoords {fs out : List Feature}
    (h : filterLoop fs = .ok out) {f : Feature} (hf : f ∈ out) :
    ∃ lon lat, getCoords f = .ok (lon, lat) ∧ inBbox lon lat = true := by
  have hbox := ((filterLoop_mem h f).mp hf).2
  unfold featureInBbox at hbox
  cases hc : getCoords f with
  | error e => rw [hc] at hbox; cases hbox
  | ok p =>
    obtain ⟨lon, lat⟩ := p
    rw [hc] at hbox
    exact ⟨lon, lat, rfl, hbox⟩

/-- C2: a failed position fetch (the response is `None`) makes `main`
return early, appending no position rows, no summary row, and leaving
the snapshot file untouched. -/
theorem c2_fatal_fetch_no_writes (env : Env) (ts : String) (ct : Int)
    (h : env.positions = none) :
    main env ts ct =
      .earlyReturn
        { positionRows := [], summaryRows := [], snapshot := none } := by
  unfold main
  rw [h]
  rfl

theorem c2_fatal_fetch_no_writes_witness :
    main { positions := none, vesselsResp := none } "t" 0 =
      .earlyReturn
        { positionRows := [], summaryRows := [], snapshot := none } :=
  c2_fatal_fetch_no_writes { positions := none, vesselsResp := none } "t" 0
    rfl

theorem keys_map_overwrite (k : Int) (v : VMeta) :
    ∀ d : List (Int × VMeta),
      (d.map (fun p => if p.1 == k then (k, v) else p)).map Prod.fst =
        d.map Prod.fst := by
  intro d
  induction d with
  | nil => rfl
  | cons p ps ih =>
    simp only [List.map_cons, ih]
    by_cases hp : p.1 == k
    · have hpk : p.1 = k := eq_of_beq hp
      simp [hp, hpk]
    · simp [hp]

theorem dictInsert_inv {mmsi_list : List Int} {d : List (Int × VMeta)}
    (k : Int) (v : VMeta)
    (h1 : (d.map Prod.fst).Nodup) (h2 : d.map Prod.fst ⊆ mmsi_list)
    (hk : k ∈ mmsi_list) :
    ((dictInsert k v d).map Prod.fst).Nodup ∧
      (dictInsert k v d).map Prod.fst ⊆ mmsi_list := by
  unfold dictInsert
  by_cases hmem : d.any (fun p => p.1 == k) = true
  · rw [if_pos hmem, keys_map_overwrite]
    exact ⟨h1, h2⟩
  · rw [if_neg hmem]
    have hknot : k ∉ d.map Prod.fst := by
      intro hkmem
      rcases List.mem_map.mp hkmem with ⟨p, hp, hfst⟩
      apply hmem
      exact List.any_eq_true.mpr ⟨p, hp, by simp [hfst]⟩
    constructor
    · simp only [List.map_append, List.map_cons, List.map_nil]
      exact List.Nodup.append h1 (List.nodup_singleton k)
        (by simpa [List.disjoint_singleton] using hknot)
    · intro x hx
      simp only [List.map_append, List.map_cons, List.map_nil,
        List.mem_append, List.mem_singleton] at hx
      rcases hx with hx | hx
      · exact h2 hx
      · exact hx ▸ hk

theorem fetch_fold_inv (mmsi_list : List Int) :
    ∀ (vessels : List RawVessel) (acc : List (Int × VMeta)),
      (acc.map Prod.fst).Nodup → acc.map Prod.fst ⊆ mmsi_list →
      ((vessels.foldl
          (fun md v =>
            match v.mmsi with
            | some m =>
              if m ∈ mmsi_list then dictInsert m (mkMeta v) md else md
            | none => md)
          acc).map Prod.fst).Nodup ∧
        (vessels.foldl
          (fun md v =>
            match v.mmsi with
            | some m =>
              if m ∈ mmsi_list then dictInsert m (mkMeta v) md else md
            | none => md)
          acc).map Prod.fst ⊆ mmsi_list := by
  intro vessels
  induction vessels with
  | nil => intro acc h1 h2; exact ⟨h1, h2⟩
  | cons v vs ih =>
    intro acc h1 h2
    simp only [List.foldl_cons]
    cases hm : v.mmsi with
    | none => exact ih acc h1 h2
    | some m =>
      dsimp only
      by_cases hin : m ∈ mmsi_list
      · rw [if_pos hin]
        rcases dictInsert_inv m (mkMeta v) h1 h2 hin with ⟨h1b, h2b⟩
        exact ih _ h1b h2b
      · rw [if_neg hin]
        exact ih acc h1 h2

/-- C4: the metadata lookup holds no identifier outside `mmsi_list`, so
its size is at most the number of distinct identifiers in the filtered
set. -/
theorem c4_lookup_restricted (resp : List RawVessel)
    (mmsi_list : List Int) :
    (∀ k ∈ (fetch_vessel_metadata (some resp) mmsi_list).map Prod.fst,
        k ∈ mmsi_list) ∧
      (fetch_vessel_metadata (some resp) mmsi_list).length ≤
        mmsi_list.dedup.length := by
  have hinv := fetch_fold_inv mmsi_list resp [] (by simp) (by simp)
  rw [show (fetch_vessel_metadata (some resp) mmsi_list) =
      (resp.foldl
        (fun md v =>
          match v.mmsi with
          | some m =>
            if m ∈ mmsi_list then dictInsert m (mkMeta v) md else md
          | none => md)
        []) from rfl]
  refine ⟨fun k hk => hinv.2 hk, ?_⟩
  have hlen : (resp.foldl
      (fun md v =>
        match v.mmsi with
        | some m =>
          if m ∈ mmsi_list then dictInsert m (mkMeta v) md else md
        | none => md)
      []).length =
      ((resp.foldl
        (fun md v =>
          match v.mmsi with
          | some m =>
            if m ∈ mmsi_list then dictInsert m (mkMeta v) md else md
          | none => md)
        []).map Prod.fst).length := by
    rw [List.length_map]
  rw [hlen]
  apply List.Subperm.length_le
  apply List.subperm_of_subset hinv.1
  intro x hx
  exact List.mem_dedup.mpr (hinv.2 hx)

theorem c4_lookup_restricted_witness :
    (∀ k ∈ (fetch_vessel_metadata
        (some [{ mmsi := some 7, name := some "A", shipType := none
               , destination := none, eta := none, draught := none }])
        [7, 7, 9]).map Prod.fst, k ∈ [7, 7, 9]) ∧
      (fetch_vessel_metadata
        (some [{ mmsi := some 7, name := some "A", shipType := none
               , destination := none, eta := none, draught := none }])
        [7, 7, 9]).length ≤ ([7, 7, 9] : List Int).dedup.length :=
  c4_lookup_restricted
    [{ mmsi := some 7, name := some "A", shipType := none
     , destination := none, eta := none, draught := none }]
    [7, 7, 9]

theorem filter_vessels_mem_getCoords {dataOpt : Option AisData}
    {out : List Feature} (h : filter_vessels dataOpt = .ok out)
    {f : Feature} (hf : f ∈ out) :
    ∃ lon lat, getCoords f = .ok (lon, lat) ∧ inBbox lon lat = true := by
  unfold filter_vessels at h
  cases dataOpt with
  | none => cases h; cases hf
  | some d =>
    dsimp only at h
    cases hfs : d.features with
    | none => rw [hfs] at h; cases h; cases hf
    | some fs =>
      rw [hfs] at h
      exact filterLoop_mem_getCoords h hf

theorem save_inv {vessels : List Feature} {md : List (Int × VMeta)}
    {ts : String} {ct : Int} {rows : List PositionRow} {summary : SummaryRow}
    (h : save_to_database vessels md ts ct = .ok (rows, summary)) :
    mapExcept (mkRow ts md) vessels = .ok rows ∧
      summary =
        { timestamp := ts, vessel_count := vessels.length
        , collection_time_ms := ct } := by
  unfold save_to_database at h
  cases hm : mapExcept (mkRow ts md) vessels with
  | error e => rw [hm] at h; cases h
  | ok rows0 =>
    rw [hm] at h
    cases h
    exact ⟨rfl, rfl⟩

theorem export_inv {vessels : List Feature} {md : List (Int × VMeta)}
    {ts : String} {doc : SnapshotDoc}
    (h : export_latest_json vessels md ts = .ok doc) :
    ∃ vl, mapExcept (mkVesselOut md) vessels = .ok vl ∧
      doc = { timestamp := ts, vessel_count := vl.length, vessels := vl } := by
  unfold export_latest_json at h
  cases hm : mapExcept (mkVesselOut md) vessels with
  | error e => rw [hm] at h; cases h
  | ok vl =>
    rw [hm] at h
    cases h
    exact ⟨vl, rfl, rfl⟩

theorem mkRow_ok_fields {ts : String} {md : List (Int × VMeta)}
    {f : Feature} {r : PositionRow} (h : mkRow ts md f = .ok r) :
    ∃ lon lat, getCoords f = .ok (lon, lat) ∧
      r.timestamp = ts ∧ r.mmsi = f.properties.mmsi ∧
      r.longitude = some lon ∧ r.latitude = some lat ∧
      r.name = (dictGet md f.properties.mmsi).map (fun m => m.name) ∧
      r.ship_type =
        (dictGet md f.properties.mmsi).bind (fun m => m.ship_type) ∧
      r.destination =
        (dictGet md f.properties.mmsi).map (fun m => m.destination) ∧
      r.eta = (dictGet md f.properties.mmsi).bind (fun m => m.eta) ∧
      r.draught =
        (dictGet md f.properties.mmsi).bind (fun m => m.draught) := by
  unfold mkRow at h
  cases hc : getCoords f with
  | error e => rw [hc] at h; cases h
  | ok p =>
    obtain ⟨lon, lat⟩ := p
    rw [hc] at h
    cases h
    exact ⟨lon, lat, rfl, rfl, rfl, rfl, rfl, rfl, rfl, rfl, rfl, rfl⟩

theorem mkRow_ok_of_getCoords {ts : String} {md : List (Int × VMeta)}
    {f : Feature} {lon lat : ℚ} (hc : getCoords f = .ok (lon, lat)) :
    ∃ r, mkRow ts md f = .ok r := by
  unfold mkRow
  rw [hc]
  exact ⟨_, rfl⟩

theorem mkVesselOut_ok_of_getCoords {md : List (Int × VMeta)}
    {f : Feature} {lon lat : ℚ} (hc : getCoords f = .ok (lon, lat)) :
    ∃ v, mkVesselOut md f = .ok v := by
  unfold mkVesselOut
  rw [hc]
  exact ⟨_, rfl⟩

theorem main_completes {env : Env} {data : AisData} {vessels : List Feature}
    {ts : String} {ct : Int}
    (hp : env.positions = some data)
    (hf : filter_vessels (some data) = .ok vessels)
    {md : List (Int × VMeta)}
    (hmd : fetch_vessel_metadata env.vesselsResp
      (vessels.map (fun f => f.properties.mmsi)) = md)
    {rows : List PositionRow} (hrows : mapExcept (mkRow ts md) vessels = .ok rows)
    {vl : List VesselOut} (hvl : mapExcept (mkVesselOut md) vessels = .ok vl) :
    main env ts ct = .completed
      { positionRows := rows
      , summaryRows :=
          [{ timestamp := ts, vessel_count := vessels.length
           , collection_time_ms := ct }]
      , snapshot :=
          some { timestamp := ts, vessel_count := vl.length
               , vessels := vl } } := by
  unfold main
  rw [hp]
  dsimp only
  rw [hf]
  dsimp only
  rw [hmd]
  unfold save_to_database
  rw [hrows]
  dsimp only
  unfold export_latest_json
  rw [hvl]

theorem main_completed_inv {env : Env} {ts : String} {ct : Int}
    {s : RunState} (h : main env ts ct = .completed s) :
    ∃ data vessels rows summary doc,
      env.positions = some data ∧
      filter_vessels (some data) = .ok vessels ∧
      save_to_database vessels
        (fetch_vessel_metadata env.vesselsResp
          (vessels.map (fun f => f.properties.mmsi))) ts ct =
        .ok (rows, summary) ∧
      export_latest_json vessels
        (fetch_vessel_metadata env.vesselsResp
          (vessels.map (fun f => f.properties.mmsi))) ts = .ok doc ∧
      s = { positionRows := rows, summaryRows := [summary]
          , snapshot := some doc } := by
  unfold main at h
  cases hp : env.positions with
  | none => rw [hp] at h; cases h
  | some data =>
    rw [hp] at h
    dsimp only at h
    cases hf : filter_vessels (some data) with
    | error e => rw [hf] at h; cases h
    | ok vessels =>
      rw [hf] at h
      dsimp only at h
      cases hs : save_to_database vessels
          (fetch_vessel_metadata env.vesselsResp
            (vessels.map (fun f => f.properties.mmsi))) ts ct with
      | error e => rw [hs] at h; cases h
      | ok pr =>
        obtain ⟨rows, summary⟩ := pr
        rw [hs] at h
        dsimp only at h
        cases he : export_latest_json vessels
            (fetch_vessel_metadata env.vesselsResp
              (vessels.map (fun f => f.properties.mmsi))) ts with
        | error e => rw [he] at h; cases h
        | ok doc =>
          rw [he] at h
          dsimp only at h
          cases h
          exact ⟨data, vessels, rows, summary, doc, rfl, hf, hs, he, rfl⟩

/-- C5: every enriched record has non-null longitude and latitude, and
its metadata fields (name, ship type, destination, ETA, draught) are all
null exactly when the lookup holds no entry for its vessel identifier. -/
theorem c5_enriched_record_fields (vessels : List Feature)
    (md : List (Int × VMeta)) (ts : String) (ct : Int)
    (rows : List PositionRow) (summary : SummaryRow)
    (h : save_to_database vessels md ts ct = .ok (rows, summary)) :
    ∀ r ∈ rows, r.longitude.isSome = true ∧ r.latitude.isSome = true ∧
      ((r.name = none ∧ r.ship_type = none ∧ r.destination = none ∧
          r.eta = none ∧ r.draught = none) ↔ dictGet md r.mmsi = none) := by
  intro r hr
  rcases mapExcept_mem (save_inv h).1 hr with ⟨f, _, hrow⟩
  rcases mkRow_ok_fields hrow with
    ⟨lon, lat, _, _, hmmsi, hlon, hlat, hname, hst, hdest, heta, hdr⟩
  refine ⟨by rw [hlon]; rfl, by rw [hlat]; rfl, ?_⟩
  rw [hmmsi, hname, hst, hdest, heta, hdr]
  cases hg : dictGet md f.properties.mmsi with
  | none => simp
  | some m => simp

/-- C3: when the metadata fetch fails, the run still completes: one
enriched row per filtered report with every metadata field null, the
summary row is written, and the snapshot document is written. -/
theorem c3_soft_metadata_failure (env : Env) (ts : String) (ct : Int)
    (data : AisData) (vessels : List Feature)
    (hp : env.positions = some data)
    (hmeta : env.vesselsResp = none)
    (hf : filter_vessels (some data) = .ok vessels) :
    ∃ rows vl,
      main env ts ct = .completed
        { positionRows := rows
        , summaryRows :=
            [{ timestamp := ts, vessel_count := vessels.length
             , collection_time_ms := ct }]
        , snapshot :=
            some { timestamp := ts, vessel_count := vl.length
                 , vessels := vl } } ∧
      rows.length = vessels.length ∧
      ∀ r ∈ rows, r.name = none ∧ r.ship_type = none ∧
        r.destination = none ∧ r.eta = none ∧ r.draught = none := by
  have hmd : fetch_vessel_metadata env.vesselsResp
      (vessels.map (fun f => f.properties.mmsi)) = [] := by
    rw [hmeta]; rfl
  have hcoords : ∀ f ∈ vessels, ∃ lon lat,
      getCoords f = .ok (lon, lat) ∧ inBbox lon lat = true :=
    fun f hfm => filter_vessels_mem_getCoords hf hfm
  obtain ⟨rows, hrows⟩ :=
    mapExcept_ok_of_forall (g := mkRow ts []) (l := vessels)
      (fun f hfm => by
        rcases hcoords f hfm with ⟨lon, lat, hc, _⟩
        exact mkRow_ok_of_getCoords hc)
  obtain ⟨vl, hvl⟩ :=
    mapExcept_ok_of_forall (g := mkVesselOut []) (l := vessels)
      (fun f hfm => by
        rcases hcoords f hfm with ⟨lon, lat, hc, _⟩
        exact mkVesselOut_ok_of_getCoords hc)
  refine ⟨rows, vl, main_completes hp hf hmd hrows hvl,
    mapExcept_length hrows, ?_⟩
  intro r hr
  rcases mapExcept_mem hrows hr with ⟨f, _, hrow⟩
  rcases mkRow_ok_fields hrow with
    ⟨lon, lat, _, _, _, _, _, hname, hst, hdest, heta, hdr⟩
  refine ⟨?_, ?_, ?_, ?_, ?_⟩ <;>
    simp [hname, hst, hdest, heta, hdr, dictGet]

/-- C8: a run that completes exports a snapshot whose vessel_count field
equals the number of enriched rows produced and also equals the length
of the vessels array in the document. -/
theorem c8_snapshot_count_roundtrip (env : Env) (ts : String) (ct : Int)
    (s : RunState) (h : main env ts ct = .completed s) :
    ∃ doc, s.snapshot = some doc ∧
      doc.vessel_count = s.positionRows.length ∧
      doc.vessel_count = doc.vessels.length := by
  rcases main_completed_inv h with
    ⟨data, vessels, rows, summary, doc, hp, hf, hs, he, hstate⟩
  rcases export_inv he with ⟨vl, hvl, hdoc⟩
  subst hstate
  refine ⟨doc, rfl, ?_, ?_⟩
  · rw [hdoc]
    dsimp only
    rw [mapExcept_length hvl, mapExcept_length (save_inv hs).1]
  · rw [hdoc]

/-- C9: within one completed run every position row, the single summary
row, and the snapshot all carry the run timestamp taken once at start,
and the summary count equals the number of position rows inserted. -/
theorem c9_run_timestamp_consistency (env : Env) (ts : String) (ct : Int)
    (s : RunState) (h : main env ts ct = .completed s) :
    (∀ r ∈ s.positionRows, r.timestamp = ts) ∧
      (∃ sm, s.summaryRows = [sm] ∧ sm.timestamp = ts ∧
        sm.vessel_count = s.positionRows.length) ∧
      ∃ doc, s.snapshot = some doc ∧ doc.timestamp = ts := by
  rcases main_completed_inv h with
    ⟨data, vessels, rows, summary, doc, hp, hf, hs, he, hstate⟩
  rcases save_inv hs with ⟨hrows, hsummary⟩
  rcases export_inv he with ⟨vl, hvl, hdoc⟩
  subst hstate
  refine ⟨?_, ⟨summary, rfl, ?_, ?_⟩, doc, rfl, ?_⟩
  · intro r hr
    rcases mapExcept_mem hrows hr with ⟨f, _, hrow⟩
    rcases mkRow_ok_fields hrow with ⟨lon, lat, _, hts, _⟩
    exact hts
  · rw [hsummary]
  · rw [hsummary]
    dsimp only
    rw [mapExcept_length hrows]
  · rw [hdoc]

theorem filterLoop_error_of_mem {fs : List Feature} {f : Feature}
    (hmem : f ∈ fs) {e0 : PyError} (hf : getCoords f = .error e0) :
    ∃ e, filterLoop fs = .error e := by
  induction fs with
  | nil => cases hmem
  | cons g rest ih =>
    rcases List.mem_cons.mp hmem with hg | hg
    · subst hg
      exact ⟨e0, by simp [filterLoop, hf]⟩
    · cases hgc : getCoords g with
      | error e => exact ⟨e, by simp [filterLoop, hgc]⟩
      | ok p =>
        obtain ⟨lon, lat⟩ := p
        rcases ih hg with ⟨e, he⟩
        exact ⟨e, by simp [filterLoop, hgc, he]⟩

/-- A well-formed feature inside the bounding box, coordinates (20, 60). -/
def fIn : Feature :=
  { geometry := some { coordinates := [20, 60] }
  , properties := { mmsi := 111, sog := some 5, cog := some 90
                  , heading := some 90, navStat := some 0
                  , posAcc := some true } }

/-- A malformed feature: the geometry member is missing entirely. -/
def fBad : Feature :=
  { geometry := none
  , properties := { mmsi := 222, sog := none, cog := none
                  , heading := none, navStat := none, posAcc := none } }

/-- C6 is false of the code: on a collection holding one good and one
malformed feature, the filter raises `KeyError` instead of skipping the
malformed feature and returning the remaining one. -/
theorem c6_counterexample :
    filter_vessels (some { features := some [fIn, fBad] }) =
        .error PyError.keyError ∧
      filter_vessels (some { features := some [fIn, fBad] }) ≠
        .ok [fIn] := by
  constructor
  · rfl
  · intro hcontra
    rw [show filter_vessels (some { features := some [fIn, fBad] }) =
        .error PyError.keyError from rfl] at hcontra
    exact Except.noConfusion hcontra

/-- C6 (amended): a position feature missing its geometry/coordinate
fields makes the filter raise an uncaught exception, so the whole run
crashes; the feature is not skipped, processing does not continue, and
no skip count is logged. -/
theorem c6_malformed_feature_crashes (env : Env) (ts : String) (ct : Int)
    (data : AisData) (fs : List Feature) (f : Feature)
    (hp : env.positions = some data) (hfs : data.features = some fs)
    (hmem : f ∈ fs) (hgeom : f.geometry = none) :
    ∃ e, main env ts ct = .crashed e := by
  have hgc : getCoords f = .error PyError.keyError := by
    unfold getCoords
    rw [hgeom]
  rcases filterLoop_error_of_mem hmem hgc with ⟨e, he⟩
  have hfv : filter_vessels (some data) = .error e := by
    unfold filter_vessels
    dsimp only
    rw [hfs]
    exact he
  refine ⟨e, ?_⟩
  unfold main
  rw [hp]
  dsimp only
  rw [hfv]

theorem c6_malformed_feature_crashes_witness :
    ∃ e, main { positions := some { features := some [fIn, fBad] }
              , vesselsResp := none } "t" 0 = .crashed e :=
  c6_malformed_feature_crashes
    { positions := some { features := some [fIn, fBad] }
    , vesselsResp := none } "t" 0
    { features := some [fIn, fBad] } [fIn, fBad] fBad rfl rfl
    (by decide) rfl

/-- A filesystem operation relevant to the snapshot writer. -/
inductive FsOp where
  | openTrunc (path : String)
  | writeAll (path : String) (content : String)
  | rename (src dst : String)
  deriving DecidableEq, Repr

/-- Whether the operation is a rename/move into place. -/
def FsOp.isRename : FsOp → Bool
  | .rename _ _ => true
  | _ => false

/-- The fixed snapshot path `data/ais/latest.json`. -/
def latest_file : String := "data/ais/latest.json"

/-- The filesystem operations `export_latest_json` performs:
`open(latest_file, "w")` truncates the snapshot in place, then
`json.dump` writes the serialized document to the same path.  No
temporary file and no rename are involved. -/
def exportFileOps (doc : String) : List FsOp :=
  [FsOp.openTrunc latest_file, FsOp.writeAll latest_file doc]

/-- Effect of one operation on the filesystem (a map path ↦ content). -/
def applyFsOp (fs : String → Option String) : FsOp → String → Option String
  | .openTrunc p => fun q => if q = p then some "" else fs q
  | .writeAll p c => fun q => if q = p then some c else fs q
  | .rename src dst => fun q =>
      if q = dst then fs src else if q = src then none else fs q

/-- The contents of the snapshot path after each prefix of the operation
sequence: every state a reader scheduled during the export can observe. -/
def snapshotObservations (fs0 : String → Option String) (doc : String) :
    List (Option String) :=
  ((exportFileOps doc).scanl applyFsOp fs0).map (fun fs => fs latest_file)

/-- Atomic replacement as the spec defines it: every observable content
of the snapshot path is either the previous document or the complete new
one. -/
def atomicObservations (old : Option String) (doc : String)
    (obs : List (Option String)) : Bool :=
  obs.all (fun c => c == old || c == some doc)

/-- A filesystem already holding a previous snapshot "OLD". -/
def fsWithOldSnapshot : String → Option String :=
  fun p => if p = latest_file then some "OLD" else none

/-- C7 is false of the code: exporting the document "NEW" over a
previous snapshot "OLD" lets a reader observe the truncated empty file,
which is neither the old nor the new document. -/
theorem c7_counterexample :
    atomicObservations (some "OLD") "NEW"
      (snapshotObservations fsWithOldSnapshot "NEW") = false := by
  decide

/-- C7 (amended): the exporter overwrites the snapshot file in place
with no temporary file and no rename: the trace truncates the fixed path
and then writes the new document there, so whenever the old content is
not the empty string and the new document is nonempty, a reader between
the two steps observes a partial (empty) document distinct from both. -/
theorem c7_in_place_overwrite (fs0 : String → Option String) (doc : String)
    (h1 : fs0 latest_file ≠ some "") (h2 : doc ≠ "") :
    ((exportFileOps doc).all (fun op => ! op.isRename)) = true ∧
      snapshotObservations fs0 doc =
        [fs0 latest_file, some "", some doc] ∧
      atomicObservations (fs0 latest_file) doc
        (snapshotObservations fs0 doc) = false := by
  have hobs : snapshotObservations fs0 doc =
      [fs0 latest_file, some "", some doc] := by
    simp [snapshotObservations, exportFileOps, List.scanl, applyFsOp]
  refine ⟨rfl, hobs, ?_⟩
  rw [hobs]
  have e1 : ((some "" : Option String) == fs0 latest_file) = false :=
    beq_eq_false_iff_ne.mpr (Ne.symm h1)
  have e2 : ((some "" : Option String) == some doc) = false :=
    beq_eq_false_iff_ne.mpr (fun hh => h2 (Option.some.inj hh).symm)
  simp [atomicObservations, e1, e2]

theorem c7_in_place_overwrite_witness :
    ((exportFileOps "NEW").all (fun op => ! op.isRename)) = true ∧
      snapshotObservations fsWithOldSnapshot "NEW" =
        [fsWithOldSnapshot latest_file, some "", some "NEW"] ∧
      atomicObservations (fsWithOldSnapshot latest_file) "NEW"
        (snapshotObservations fsWithOldSnapshot "NEW") = false :=
  c7_in_place_overwrite fsWithOldSnapshot "NEW" (by decide) (by decide)

/-- A feature outside the box (longitude 10 is below the minimum). -/
def fOutside : Feature :=
  { geometry := some { coordinates := [10, 60] }
  , properties := { mmsi := 333, sog := none, cog := none
                  , heading := none, navStat := none, posAcc := none } }

/-- A feature exactly on the min-longitude / min-latitude corner. -/
def fEdge : Feature :=
  { geometry := some { coordinates := [17, q58_5] }
  , properties := { mmsi := 444, sog := none, cog := none
                  , heading := none, navStat := none, posAcc := none } }

theorem c1_filter_inclusive_bbox_witness :
    fEdge ∈ [fIn, fEdge] ↔ fEdge ∈ [fIn, fOutside, fEdge] ∧
      ((17 : ℚ) ≤ 17 ∧ (17 : ℚ) ≤ 303 / 10 ∧
        (117 / 2 : ℚ) ≤ q58_5 ∧ q58_5 ≤ 66) :=
  c1_filter_inclusive_bbox [fIn, fOutside, fEdge] [fIn, fEdge] rfl
    fEdge 17 q58_5 rfl

theorem c3_soft_metadata_failure_witness :
    ∃ rows vl,
      main { positions := some { features := some [fIn] }
           , vesselsResp := none } "t" 0 = .completed
        { positionRows := rows
        , summaryRows :=
            [{ timestamp := "t", vessel_count := [fIn].length
             , collection_time_ms := 0 }]
        , snapshot :=
            some { timestamp := "t", vessel_count := vl.length
                 , vessels := vl } } ∧
      rows.length = [fIn].length ∧
      ∀ r ∈ rows, r.name = none ∧ r.ship_type = none ∧
        r.destination = none ∧ r.eta = none ∧ r.draught = none :=
  c3_soft_metadata_failure
    { positions := some { features := some [fIn] }, vesselsResp := none }
    "t" 0 { features := some [fIn] } [fIn] rfl rfl rfl

/-- A metadata lookup holding an entry for vessel 111. -/
def mdA : List (Int × VMeta) :=
  [(111, { name := "Alpha", ship_type := some 70, destination := "X"
         , eta := none, draught := some 5 })]

/-- The row `save_to_database` inserts for `fIn` joined with `mdA`. -/
def rowA : PositionRow :=
  { timestamp := "t", mmsi := 111, name := some "Alpha"
  , longitude := some 20, latitude := some 60, sog := some 5
  , cog := some 90, heading := some 90, nav_stat := some 0
  , ship_type := some 70, destination := some "X", eta := none
  , draught := some 5, pos_acc := some true }

theorem c5_enriched_record_fields_witness :
    rowA.longitude.isSome = true ∧ rowA.latitude.isSome = true ∧
      ((rowA.name = none ∧ rowA.ship_type = none ∧ rowA.destination = none ∧
          rowA.eta = none ∧ rowA.draught = none) ↔
        dictGet mdA rowA.mmsi = none) :=
  c5_enriched_record_fields [fIn] mdA "t" 0 [rowA]
    { timestamp := "t", vessel_count := 1, collection_time_ms := 0 } rfl
    rowA (List.mem_singleton.mpr rfl)

/-- A full environment for a successful run over the single feature
`fIn` and an empty metadata response. -/
def envC : Env :=
  { positions := some { features := some [fIn] }, vesselsResp := some [] }

/-- The row the run over `envC` inserts. -/
def rowIn0 : PositionRow :=
  { timestamp := "t", mmsi := 111, name := none
  , longitude := some 20, latitude := some 60, sog := some 5
  , cog := some 90, heading := some 90, nav_stat := some 0
  , ship_type := none, destination := none, eta := none
  , draught := none, pos_acc := some true }

/-- The snapshot entry the run over `envC` exports. -/
def vlIn0 : VesselOut :=
  { mmsi := 111, name := none, lon := some 20, lat := some 60
  , sog := some 5, cog := some 90, heading := some 90
  , ship_type := none, destination := none }

/-- The state persisted by the run over `envC`. -/
def sC : RunState :=
  { positionRows := [rowIn0]
  , summaryRows :=
      [{ timestamp := "t", vessel_count := 1, collection_time_ms := 0 }]
  , snapshot :=
      some { timestamp := "t", vessel_count := 1, vessels := [vlIn0] } }

theorem c8_snapshot_count_roundtrip_witness :
    ∃ doc, sC.snapshot = some doc ∧
      doc.vessel_count = sC.positionRows.length ∧
      doc.vessel_count = doc.vessels.length :=
  c8_snapshot_count_roundtrip envC "t" 0 sC rfl

theorem c9_run_timestamp_consistency_witness :
    (∀ r ∈ sC.positionRows, r.timestamp = "t") ∧
      (∃ sm, sC.summaryRows = [sm] ∧ sm.timestamp = "t" ∧
        sm.vessel_count = sC.positionRows.length) ∧
      ∃ doc, sC.snapshot = some doc ∧ doc.timestamp = "t" :=
  c9_run_timestamp_consistency envC "t" 0 sC rfl

end CollectAis
